import Mathlib

/-
  Verification development for the ignis GPU command-abstraction library.

  Each definition is a shallow embedding of a function or data structure of
  the C++ source (file and symbol named in its doc comment).  Machine
  integers are modelled as Nat (all the embedded quantities are unsigned
  and no overflow is exercised); fatal log calls (oic::System::log()->fatal)
  abort the process, so fallible code is embedded as Option, `none` standing
  for the fatal path.  Native driver calls are recorded as explicit action
  lists so that theorems can speak about which calls a code path issues.
-/

namespace Ignis

/-- Two-component vector, standing for the Vec2u32 / Vec2i of types/vec.hpp
(a collaborator outside the core; only componentwise storage and equality
are used by the embedded code). -/
structure Vec2 (α : Type) where
  x : α
  y : α
deriving DecidableEq, Repr

/-- GPU buffer kinds, from the GPUBufferType enumeration (graphics/enums.hpp).
The constructors are those the embedded code inspects (glxBufferType in the
OpenGL translation unit lists exactly these). -/
inductive GPUBufferType
  | UNIFORM | VERTEX | INDEX | STRUCTURED | STORAGE
  | INDIRECT_DRAW | INDIRECT_DISPATCH
deriving DecidableEq, Repr

/-- Pixel/channel formats, from the GPUFormat enumeration.  Only the
constructors the embedded code distinguishes are modelled (the index-format
check of PrimitiveBuffer and a few color formats for concrete witnesses). -/
inductive GPUFormat
  | R8 | RG8 | RGB8 | RGBA8
  | R16u | R16i | R32u | R32i
  | R32f | RG32f | RGB32f | RGBA32f
deriving DecidableEq, Repr

/-- One vertex attribute channel of a BufferAttributes value.
Modelled from the spec: buffer_layout.hpp is not under src/; the spec
describes BufferAttributes as "a vertex format descriptor (channel formats,
per-channel byte offset, per-buffer stride, instancing flag)", and
glxGenerateVao reads elem.index, elem.format and elem.offset. -/
structure FormatElem where
  index : Nat
  format : GPUFormat
  offset : Nat
deriving DecidableEq, Repr

/-- A vertex format descriptor.
Modelled from the spec: buffer_layout.hpp is not under src/; fields follow
the spec's "channel formats, per-channel byte offset, per-buffer stride,
instancing flag" and the accessors used by the source (getStride, formats,
instanced). -/
structure BufferAttributes where
  values : List FormatElem
  stride : Nat
  instanced : Bool
deriving DecidableEq, Repr

/-- The part of a GPUBuffer the PrimitiveBuffer constructor inspects:
its declared kind (getInfo().type) and its byte size (size()). -/
structure GPUBufferInfo where
  type : GPUBufferType
  size : Nat
deriving DecidableEq, Repr

/-- A BufferLayout: a vertex format bound to a buffer (or to initial data
from which a buffer is auto-allocated when `buffer = none`).
`initDataSize` is the byte size of initData, which becomes the size of the
auto-allocated buffer (GPUBuffer::Info(initData, VERTEX, usage) in
PrimitiveBuffer's constructor). -/
structure BufferLayout where
  formats : BufferAttributes
  buffer : Option GPUBufferInfo
  initDataSize : Nat
deriving DecidableEq, Repr

/-- Byte size of the data backing a layout: the supplied buffer's size, or
the initial data's size when the buffer is auto-allocated. -/
def BufferLayout.backingSize (l : BufferLayout) : Nat :=
  match l.buffer with
  | some b => b.size
  | none => l.initDataSize

/-- The layout's resolved element count.  From BufferLayout's constructor in
the source: `elements(u32(b->size() / formats.getStride()))`; for the
auto-allocated case the same derivation applies to the initial data
(spec: "derives elementCount = bufferSize / stride"). -/
def BufferLayout.elements (l : BufferLayout) : Nat :=
  l.backingSize / l.formats.stride

/-- BufferLayout::size().
Modelled from the spec: buffer_layout.hpp is not under src/.  size() must
be derived from the element count and stride (it is compared against the
freshly allocated buffer's size after initData is cleared), so it is
elements * stride. -/
def BufferLayout.layoutSize (l : BufferLayout) : Nat :=
  l.elements * l.formats.stride

/-- PrimitiveBuffer::Info: an ordered list of vertex layouts plus an
optional index layout (hasIndices() holds when an index layout is given). -/
structure PBInfo where
  vertexLayout : List BufferLayout
  indexLayout : Option BufferLayout
deriving DecidableEq, Repr

/-- One iteration of the vertex-layout loop of PrimitiveBuffer's
constructor.  `elements` is the running baseline (0 = not yet set, matching
the `usz elements{}` local); the result is the new baseline, or `none` for
the fatal paths:
 - auto-allocated buffer (`!it.buffer`): fatal if it.size() is 0, fatal if
   a baseline exists and differs from it.elements; finally the allocated
   buffer's size (= initData size) must equal it.size();
 - supplied buffer: fatal if its kind is not VERTEX; fatal if the
   (possibly just-set) baseline differs from it.elements or is 0; finally
   the buffer's size must equal it.size(). -/
def vertexStep (elements : Nat) (it : BufferLayout) : Option Nat :=
  match it.buffer with
  | none =>
    if it.layoutSize = 0 then none
    else
      let elements' := if elements = 0 then it.elements else elements
      if elements ≠ 0 ∧ elements ≠ it.elements then none
      else if it.initDataSize ≠ it.layoutSize then none
      else some elements'
  | some b =>
    if b.type ≠ GPUBufferType.VERTEX then none
    else
      let elements' := if elements = 0 then it.elements else elements
      if elements' ≠ it.elements ∨ elements' = 0 then none
      else if b.size ≠ it.layoutSize then none
      else some elements'

/-- The vertex-layout loop of PrimitiveBuffer's constructor, folded over
the layouts in order with the running element baseline. -/
def vertexFold (elements : Nat) : List BufferLayout → Option Nat
  | [] => some elements
  | it :: rest =>
    match vertexStep elements it with
    | none => none
    | some e => vertexFold e rest

/-- The index-layout checks of PrimitiveBuffer's constructor: a supplied
buffer must be tagged INDEX (an auto-allocated one is tagged INDEX by
construction), the layout must declare exactly one format, and that format
must be a 16- or 32-bit (unsigned) integer format. -/
def indexLayoutOk (l : BufferLayout) : Bool :=
  (match l.buffer with
   | some b => b.type = GPUBufferType.INDEX
   | none => true) &&
  l.formats.values.length = 1 &&
  (match l.formats.values with
   | [f] =>
     f.format = GPUFormat.R32u || f.format = GPUFormat.R32i ||
     f.format = GPUFormat.R16u || f.format = GPUFormat.R16i
   | _ => false)

/-- Well-formedness of one vertex layout relative to an expected element
count E, collecting the per-layout conditions the constructor's checks
demand: the layout resolves to E elements, its backing data is exactly E
elements of its stride, and a supplied buffer is tagged VERTEX. -/
def vertexLayoutOk (E : Nat) (l : BufferLayout) : Bool :=
  l.elements = E && l.backingSize = E * l.formats.stride &&
  (match l.buffer with
   | some b => b.type = GPUBufferType.VERTEX
   | none => true)

/-- PrimitiveBuffer's constructor: runs the vertex loop, then requires at
least one vertex layout, then validates the index layout when present.
On success it returns the resolved common element count (the value the
constructed object reports; PrimitiveBuffer's element accessor is not under
src/ and is modelled from the spec's "the resulting object reports element
count E"). -/
def pbConstruct (info : PBInfo) : Option Nat :=
  match vertexFold 0 info.vertexLayout with
  | none => none
  | some e =>
    if info.vertexLayout.length = 0 then none
    else
      match info.indexLayout with
      | none => some e
      | some il => if indexLayoutOk il then some e else none

/-- The loop body of PrimitiveBuffer::matchLayout compared candidate entry
i against vertexLayout[i].formats for every i below the candidate's length.
The source loop indexes vertexLayout without a bounds check, so a candidate
longer than the vertex-layout list reads out of bounds (undefined in the
source); the embedding returns false there and every theorem restricts to
in-bounds candidates. -/
def matchFormats : List BufferAttributes → List BufferLayout → Bool
  | [], _ => true
  | a :: as, v :: vs => if a = v.formats then matchFormats as vs else false
  | _ :: _, [] => false

/-- PrimitiveBuffer::matchLayout(layout). -/
def matchLayout (info : PBInfo) (layout : List BufferAttributes) : Bool :=
  matchFormats layout info.vertexLayout

/-
  Descriptor resolution (glxBindDescriptors in the OpenGL translation unit).
-/

/-- Texture dimensionality tags of the TextureType enumeration (the
constructors glxTextureType lists). -/
inductive TextureType
  | TEXTURE_CUBE | TEXTURE_1D | TEXTURE_2D | TEXTURE_3D | TEXTURE_MS
  | TEXTURE_CUBE_ARRAY | TEXTURE_1D_ARRAY | TEXTURE_2D_ARRAY | TEXTURE_MS_ARRAY
deriving DecidableEq, Repr

/-- A texture sub-range (subres.textureRange): mip range, layer range and
view type, exactly the tuple glTextureView receives and texture views are
keyed by. -/
structure TextureRange where
  minLevel : Nat
  levelCount : Nat
  minLayer : Nat
  layerCount : Nat
  subType : TextureType
deriving DecidableEq, Repr

/-- Slot resource categories of the ResourceType enumeration; the embedded
code only distinguishes CBUFFER (uniform buffer) from the rest
(pipeline_layout.hpp is not under src/; constructors modelled from the
spec's buffer / texture / sampler slot categories). -/
inductive ResourceType
  | CBUFFER | BUFFER | TEXTURE | IMAGE | SAMPLER
deriving DecidableEq, Repr

/-- Native bind-point categories used as the low 32 bits of the
ctx.boundByBase key: GL_UNIFORM_BUFFER, GL_SHADER_STORAGE_BUFFER,
GL_SAMPLER, GL_TEXTURE and GL_IMAGE_2D.  The key
`(u64(localId) << 32) | bindPoint` is injective in the pair
(localId, bindPoint) since every GLenum is below 2^32, so the cache is
embedded as a function of that pair. -/
inductive GLBindPoint
  | uniformBuffer | shaderStorageBuffer | samplerPoint | texturePoint | imagePoint
deriving DecidableEq, Repr

/-- A cached bound range (struct BoundRange of gl_graphics.hpp).  HashMap
operator[] value-initializes a missing entry, so the cache's default value
is {handle 0, offset 0, size 0}. -/
structure BoundRange where
  handle : Nat
  offset : Nat
  size : Nat
deriving DecidableEq, Repr

/-- The default-constructed BoundRange a missing cache entry starts as. -/
def BoundRange.zero : BoundRange := ⟨0, 0, 0⟩

/-- One slot of the pipeline layout (the RegisterLayout values iterated by
glxBindDescriptors): a global id keying the bound-resources map, a local
(binding-point) id, a resource category and a writability flag.
Modelled from the spec where pipeline_layout.hpp is missing: "identified by
a global id and a local/binding-point id"; the fields are exactly those the
source reads (resource.globalId, resource.localId, resource.type,
resource.isWritable). -/
structure DescriptorSlot where
  globalId : Nat
  localId : Nat
  type : ResourceType
  isWritable : Bool
deriving DecidableEq, Repr

/-- The dynamic kind of a bound resource, standing for the dynamic_cast
chain of glxBindDescriptors: a GPUBuffer (with its native handle), a
Sampler (with its handle and the sampler-data texture id, if any), or a
Texture (by id into the texture store). -/
inductive ResourceKind
  | buffer (handle : Nat)
  | sampler (handle : Nat) (texId : Option Nat)
  | texture (texId : Nat)
deriving DecidableEq, Repr

/-- A bound subresource (Descriptors::Info's resources map values): the
resource plus its buffer byte range and texture sub-range. -/
structure Subresource where
  kind : ResourceKind
  bufOffset : Nat
  bufSize : Nat
  texRange : TextureRange
deriving DecidableEq, Repr

/-- The immutable part of a texture object that glxBindDescriptors reads:
its native handle and color format. -/
structure TexObj where
  handle : Nat
  format : GPUFormat
deriving DecidableEq, Repr

/-- Native calls glxBindDescriptors can issue (diagnostic glObjectLabel
calls are not modelled). -/
inductive DescCall
  | bindBufferRange (bindPoint : GLBindPoint) (localId handle offset size : Nat)
  | bindSampler (localId handle : Nat)
  | genTextureView (viewHandle : Nat) (range : TextureRange) (texHandle : Nat)
      (format : GPUFormat)
  | bindTextureUnit (localId handle : Nat)
  | bindImageTexture (localId handle : Nat) (format : GPUFormat)
deriving DecidableEq, Repr

/-- The context state glxBindDescriptors touches: the range cache
ctx.boundByBase, the per-texture view caches (tex->getData()->textureViews,
keyed here by texture id), and a fresh-name counter standing for
glGenTextures (which always returns an unused, nonzero name; the counter
starts at 1 and only grows). -/
structure DescCtx where
  boundByBase : Nat × GLBindPoint → BoundRange
  texViews : Nat → List (TextureRange × Nat)
  nextView : Nat

/-- Look up the bound resource by global id
(descriptors->getInfo().resources.find(resource.globalId)); the map is
embedded as an association list with the first match winning. -/
def lookupResource (resources : List (Nat × Subresource)) (globalId : Nat) :
    Option Subresource :=
  (resources.find? (fun p => p.1 = globalId)).map Prod.snd

/-- The bind point a buffer slot uses: GL_UNIFORM_BUFFER for CBUFFER slots,
GL_SHADER_STORAGE_BUFFER otherwise. -/
def bufferBindPoint (slot : DescriptorSlot) : GLBindPoint :=
  if slot.type = ResourceType.CBUFFER then GLBindPoint.uniformBuffer
  else GLBindPoint.shaderStorageBuffer

/-- The texture-binding tail of the slot body (`if (tex) {...}`): find or
lazily create the view keyed by the exact sub-range, then bind it as a
sampled texture (read-only slots) or a read-write image (writable slots),
each deduplicated by handle against the cache (only the handle field of the
cache entry is written, as in the source). -/
def bindTexturePart (textures : Nat → TexObj) (ctx : DescCtx)
    (slot : DescriptorSlot) (subres : Subresource) (texId : Nat) :
    DescCtx × List DescCall :=
  let views := ctx.texViews texId
  let textureView :=
    (Option.map Prod.snd (views.find? (fun v => v.1 = subres.texRange))).getD 0
  let (textureView, ctx, genCalls) :=
    if textureView = 0 then
      let fresh := ctx.nextView
      (fresh,
       { ctx with
         texViews := Function.update ctx.texViews texId
           (views ++ [(subres.texRange, fresh)]),
         nextView := ctx.nextView + 1 },
       [DescCall.genTextureView fresh subres.texRange (textures texId).handle
          (textures texId).format])
    else (textureView, ctx, [])
  if slot.isWritable = false then
    let key := (slot.localId, GLBindPoint.texturePoint)
    let boundTex := ctx.boundByBase key
    if boundTex.handle ≠ textureView then
      ({ ctx with
         boundByBase :=
           Function.update ctx.boundByBase key { boundTex with handle := textureView } },
       genCalls ++ [DescCall.bindTextureUnit slot.localId textureView])
    else (ctx, genCalls)
  else
    let key := (slot.localId, GLBindPoint.imagePoint)
    let boundImg := ctx.boundByBase key
    if boundImg.handle ≠ textureView then
      ({ ctx with
         boundByBase :=
           Function.update ctx.boundByBase key { boundImg with handle := textureView } },
       genCalls ++
         [DescCall.bindImageTexture slot.localId textureView (textures texId).format])
    else (ctx, genCalls)

/-- One iteration of glxBindDescriptors' slot loop: look up the bound
resource by the slot's global id (absent means the slot is skipped), then
dispatch on the resource's dynamic kind.  A buffer is range-bound at the
slot's bind point only when the (handle, offset, size) triple differs from
the cached one; a sampler is bound by handle when it differs, and its
sampler-data texture (if any) then goes through the texture tail; a texture
resource goes through the texture tail directly. -/
def bindSlot (textures : Nat → TexObj) (resources : List (Nat × Subresource))
    (ctx : DescCtx) (slot : DescriptorSlot) : DescCtx × List DescCall :=
  match lookupResource resources slot.globalId with
  | none => (ctx, [])
  | some subres =>
    match subres.kind with
    | ResourceKind.buffer handle =>
      let bindPoint := bufferBindPoint slot
      let key := (slot.localId, bindPoint)
      let bound := ctx.boundByBase key
      if bound.handle = handle ∧ bound.offset = subres.bufOffset ∧
          bound.size = subres.bufSize then
        (ctx, [])
      else
        ({ ctx with
           boundByBase :=
             Function.update ctx.boundByBase key
               ⟨handle, subres.bufOffset, subres.bufSize⟩ },
         [DescCall.bindBufferRange bindPoint slot.localId handle
            subres.bufOffset subres.bufSize])
    | ResourceKind.sampler handle texId =>
      let key := (slot.localId, GLBindPoint.samplerPoint)
      let bound := ctx.boundByBase key
      let (ctx, samplerCalls) :=
        if bound.handle ≠ handle then
          ({ ctx with
             boundByBase :=
               Function.update ctx.boundByBase key { bound with handle := handle } },
           [DescCall.bindSampler slot.localId handle])
        else (ctx, [])
      match texId with
      | none => (ctx, samplerCalls)
      | some t =>
        let (ctx', texCalls) := bindTexturePart textures ctx slot subres t
        (ctx', samplerCalls ++ texCalls)
    | ResourceKind.texture texId =>
      bindTexturePart textures ctx slot subres texId

/-- glxBindDescriptors: fold the slot step over the pipeline layout's slots
in iteration order, concatenating the issued native calls. -/
def glxBindDescriptors (textures : Nat → TexObj)
    (resources : List (Nat × Subresource)) (ctx : DescCtx) :
    List DescriptorSlot → DescCtx × List DescCall
  | [] => (ctx, [])
  | slot :: rest =>
    let (ctx', calls) := bindSlot textures resources ctx slot
    let (ctx'', calls') := glxBindDescriptors textures resources ctx' rest
    (ctx'', calls ++ calls')

/-
  Viewport and scissor state (glxSetViewport / glxSetScissor /
  glxSetViewportAndScissor in the OpenGL translation unit).
-/

/-- The context fields the viewport/scissor functions touch: the bound
framebuffer's size (ctx.currentFramebuffer, of which only getInfo().size
is read; `none` = no framebuffer bound), the cached viewport rectangle,
the cached scissor rectangle and the scissor-test enable flag. -/
structure VSCtx where
  currentFramebufferSize : Option (Vec2 Nat)
  viewportOff : Vec2 Int
  viewportSize : Vec2 Nat
  scissorOff : Vec2 Int
  scissorSize : Vec2 Nat
  enableScissor : Bool
deriving DecidableEq, Repr

/-- Native calls the viewport/scissor functions can issue. -/
inductive VSCall
  | enableScissorTest
  | disableScissorTest
  | viewport (offset : Vec2 Int) (size : Vec2 Nat)
  | scissor (offset : Vec2 Int) (size : Vec2 Nat)
deriving DecidableEq, Repr

/-- The shared zero-size fallback of glxSetViewport and glxSetScissor:
a size with either component zero is replaced by the bound framebuffer's
size; the oicAssert is fatal (`none`) when no framebuffer is bound. -/
def resolveViewSize (ctx : VSCtx) (size : Vec2 Nat) : Option (Vec2 Nat) :=
  if size.x = 0 ∨ size.y = 0 then ctx.currentFramebufferSize else some size

/-- glxSetViewport: resolve the size, then call glViewport and update the
cached rectangle only when offset or size changed. -/
def glxSetViewport (ctx : VSCtx) (size : Vec2 Nat) (offset : Vec2 Int) :
    Option (VSCtx × List VSCall) :=
  match resolveViewSize ctx size with
  | none => none
  | some size =>
    if ctx.viewportOff ≠ offset ∨ ctx.viewportSize ≠ size then
      some ({ ctx with viewportOff := offset, viewportSize := size },
            [VSCall.viewport offset size])
    else some (ctx, [])

/-- glxSetScissor: resolve the size, enable the scissor test if it was
disabled, then call glScissor and update the cached rectangle only when
offset or size changed. -/
def glxSetScissor (ctx : VSCtx) (size : Vec2 Nat) (offset : Vec2 Int) :
    Option (VSCtx × List VSCall) :=
  match resolveViewSize ctx size with
  | none => none
  | some size =>
    let enableCalls : List VSCall :=
      if ctx.enableScissor = false then [VSCall.enableScissorTest] else []
    let ctx1 : VSCtx :=
      if ctx.enableScissor = false then { ctx with enableScissor := true }
      else ctx
    if ctx1.scissorOff ≠ offset ∨ ctx1.scissorSize ≠ size then
      some ({ ctx1 with scissorOff := offset, scissorSize := size },
            enableCalls ++ [VSCall.scissor offset size])
    else some (ctx1, enableCalls)

/-- glxSetViewportAndScissor: disable the scissor test if it was enabled,
then defer to glxSetViewport; the cached scissor rectangle is not
touched. -/
def glxSetViewportAndScissor (ctx : VSCtx) (size : Vec2 Nat)
    (offset : Vec2 Int) : Option (VSCtx × List VSCall) :=
  let pre : List VSCall :=
    if ctx.enableScissor then [VSCall.disableScissorTest] else []
  let ctx1 : VSCtx :=
    if ctx.enableScissor then { ctx with enableScissor := false } else ctx
  match glxSetViewport ctx1 size offset with
  | none => none
  | some (ctx', calls) => some (ctx', pre ++ calls)

/-
  Graphics::present (gl_graphics.cpp).
-/

/-- The part of an intermediate Framebuffer that Graphics::present reads:
its reported size, how many render textures its data block holds, and its
native framebuffer name (the blit source). -/
structure FBPresent where
  size : Vec2 Nat
  renderTextureCount : Nat
  index : Nat
deriving DecidableEq, Repr

/-- The part of a Swapchain that Graphics::present reads (its size; bind
and present are recorded as events). -/
structure SwapchainInfo where
  size : Vec2 Nat
deriving DecidableEq, Repr

/-- Observable steps of Graphics::present, in issue order.  Command-list
execution is opaque to this claim (the interpreter is embedded elsewhere),
so execute(commands) is recorded as one event carrying the list count, and
Graphics::execute's initial data->updateContext() drain as another; the
glxSetViewportAndScissor call inside the blit block is likewise recorded
as an event (its cache effects are the separately embedded
glxSetViewportAndScissor). -/
inductive PresentEvent
  | warnNoIntermediate
  | swapchainBind
  | updateContext
  | executeLists (count : Nat)
  | setViewportAndScissor (size : Vec2 Nat)
  | blit (sourceIndex : Nat) (size : Vec2 Nat)
  | swapchainPresent
deriving DecidableEq, Repr

/-- Graphics::present(intermediate, swapchain, commands): fatal (`none`)
when the swapchain is null, when an intermediate is given whose size
differs from the swapchain's, or when the given intermediate has no render
texture (oicAssert in the blit block); a missing intermediate only logs a
warning.  On completion it returns the events in order and the context's
frame counter incremented once (++ctx.frameId). -/
def present (intermediate : Option FBPresent) (swapchain : Option SwapchainInfo)
    (numCommandLists : Nat) (frameId : Nat) :
    Option (List PresentEvent × Nat) :=
  match swapchain with
  | none => none
  | some sc =>
    let warnEvents :=
      if intermediate = none then [PresentEvent.warnNoIntermediate] else []
    if (match intermediate with
        | some i => decide (i.size ≠ sc.size)
        | none => false) = true then none
    else
      let preEvents := warnEvents ++
        [PresentEvent.swapchainBind, PresentEvent.updateContext,
         PresentEvent.executeLists numCommandLists]
      match intermediate with
      | none => some (preEvents ++ [PresentEvent.swapchainPresent], frameId + 1)
      | some i =>
        if i.renderTextureCount = 0 then none
        else
          some (preEvents ++
            [PresentEvent.setViewportAndScissor sc.size,
             PresentEvent.blit i.index sc.size,
             PresentEvent.swapchainPresent], frameId + 1)

/-
  Framebuffer::onResize (gl_framebuffer.cpp).
-/

/-- Depth formats, from the DepthFormat enumeration (the constructors
glxDepthFormat lists, plus NONE and AUTO from the Surface header's
comment). -/
inductive DepthFormat
  | NONE | AUTO | D16 | D24 | D24_S8 | D32 | D32F | D32F_S8
deriving DecidableEq, Repr

/-- Whether a depth format carries a stencil aspect
(FormatHelper::hasStencil; format.hpp is not under src/, modelled from the
format names: the _S8 formats carry stencil). -/
def DepthFormat.hasStencil : DepthFormat → Bool
  | DepthFormat.D24_S8 => true
  | DepthFormat.D32F_S8 => true
  | _ => false

/-- Surface::Info (the fields Framebuffer::onResize reads and writes).
The f64 viewportScale is embedded as a rational. -/
structure FBInfo where
  size : Vec2 Nat
  colorFormats : List GPUFormat
  depthFormat : DepthFormat
  keepDepth : Bool
  samples : Nat
  isDynamic : Bool
  viewportScale : ℚ
deriving DecidableEq, Repr

/-- Framebuffer::Data: the native framebuffer name, the depth attachment
name (a texture when keepDepth, else a renderbuffer) and the color
attachment names. -/
structure FBData where
  index : Nat
  depth : Nat
  renderTextures : List Nat
deriving DecidableEq, Repr

/-- A framebuffer together with a fresh-name counter standing for the
glGen* calls (which return unused nonzero names; the counter starts at 1
and only grows). -/
structure FBState where
  info : FBInfo
  data : FBData
  nextName : Nat
deriving DecidableEq, Repr

/-- The u32(...) cast of the scaled size: truncation toward zero, which on
the nonnegative products involved is the floor (a negative scale would be
undefined in the source cast; the embedding maps it to 0). -/
def u32trunc (q : ℚ) : Nat := (Int.floor q).toNat

/-- The new size onResize computes:
`Vec2u{ u32(siz[0] * info.viewportScale), u32(siz[1] * info.viewportScale) }`. -/
def computedFBSize (info : FBInfo) (siz : Vec2 Nat) : Vec2 Nat :=
  ⟨u32trunc ((siz.x : ℚ) * info.viewportScale),
   u32trunc ((siz.y : ℚ) * info.viewportScale)⟩

/-- Native calls Framebuffer::onResize can issue.  Each alloc* action
stands for the gen + storage-allocation + attach call group of the source
(glGenTextures/glGenRenderbuffers, glTexImage2DMultisample or
glRenderbufferStorageMultisample, glFramebufferTexture or
glFramebufferRenderbuffer); diagnostic glObjectLabel calls are not
modelled. -/
inductive FBCall
  | deleteFramebuffer (h : Nat)
  | deleteTexture (h : Nat)
  | deleteRenderbuffer (h : Nat)
  | genFramebuffer (h : Nat)
  | allocDepthTexture (h : Nat) (format : DepthFormat) (samples : Nat)
      (size : Vec2 Nat)
  | allocDepthRenderbuffer (h : Nat) (format : DepthFormat) (samples : Nat)
      (size : Vec2 Nat) (stencilAttach : Bool)
  | allocColorTexture (h : Nat) (format : GPUFormat) (samples : Nat)
      (size : Vec2 Nat) (attachment : Nat)
  | drawBuffers (count : Nat)
  | checkComplete
deriving DecidableEq, Repr

/-- The attachment-release block of onResize: delete the framebuffer name
if nonzero; delete the depth attachment if nonzero (a texture when
keepDepth, else a renderbuffer); delete every nonzero color texture. -/
def releaseCalls (info : FBInfo) (d : FBData) : List FBCall :=
  (if d.index ≠ 0 then [FBCall.deleteFramebuffer d.index] else []) ++
  (if d.depth ≠ 0 then
     [if info.keepDepth then FBCall.deleteTexture d.depth
      else FBCall.deleteRenderbuffer d.depth]
   else []) ++
  d.renderTextures.filterMap
    (fun h => if h ≠ 0 then some (FBCall.deleteTexture h) else none)

/-- The depth-attachment allocation of onResize: nothing when the depth
format is NONE; otherwise a multisample texture when keepDepth, else a
renderbuffer attached at the depth-stencil point when the format carries
stencil.  Returns the depth name, the advanced name counter and the
calls. -/
def allocDepth (info : FBInfo) (size : Vec2 Nat) (next : Nat) :
    Nat × Nat × List FBCall :=
  if info.depthFormat ≠ DepthFormat.NONE then
    if info.keepDepth then
      (next, next + 1,
       [FBCall.allocDepthTexture next info.depthFormat info.samples size])
    else
      (next, next + 1,
       [FBCall.allocDepthRenderbuffer next info.depthFormat info.samples size
          info.depthFormat.hasStencil])
  else (0, next, [])

/-- The color-attachment loop of onResize: one multisample texture per
declared color format, attached at consecutive color attachment points.
Returns the names (the new renderTextures list), the advanced name counter
and the calls. -/
def allocColors (formats : List GPUFormat) (samples : Nat) (size : Vec2 Nat)
    (next : Nat) (attachment : Nat) : List Nat × Nat × List FBCall :=
  match formats with
  | [] => ([], next, [])
  | f :: rest =>
    let r := allocColors rest samples size (next + 1) (attachment + 1)
    (next :: r.1, r.2.1,
     FBCall.allocColorTexture next f samples size attachment :: r.2.2)

/-- The framebuffer state the allocation path of onResize produces: the
updated size, a fresh framebuffer name, the depth attachment and one color
attachment name per declared color format. -/
def onResizeAllocState (st : FBState) (size : Vec2 Nat) : FBState :=
  let info := { st.info with size := size }
  let dres := allocDepth info size (st.nextName + 1)
  let cres := allocColors info.colorFormats info.samples size dres.2.1 0
  { info := info,
    data := { index := st.nextName, depth := dres.1, renderTextures := cres.1 },
    nextName := cres.2.1 }

/-- The native calls the allocation path of onResize issues after the
release block: generate the framebuffer, allocate the depth and color
attachments, set the draw buffers, verify completeness. -/
def onResizeAllocCalls (st : FBState) (size : Vec2 Nat) : List FBCall :=
  let info := { st.info with size := size }
  let dres := allocDepth info size (st.nextName + 1)
  let cres := allocColors info.colorFormats info.samples size dres.2.1 0
  [FBCall.genFramebuffer st.nextName] ++ dres.2.2 ++ cres.2.2 ++
    [FBCall.drawBuffers info.colorFormats.length, FBCall.checkComplete]

/-- Framebuffer::onResize(siz).  `complete` is the externally determined
glCheckFramebufferStatus outcome (true = GL_FRAMEBUFFER_COMPLETE).
Early return when the computed size equals the current size or the surface
is static; otherwise store the new size, release every current attachment
name, and: when the computed width is zero, zero the framebuffer and depth
names and stop (suspended, no allocation, no completeness check); else
allocate a framebuffer name, the depth attachment, the color attachments,
set the draw buffers and verify completeness — incompleteness is fatal
(`none`). -/
def onResize (complete : Bool) (st : FBState) (siz : Vec2 Nat) :
    Option (FBState × List FBCall) :=
  let size := computedFBSize st.info siz
  if st.info.size = size ∨ st.info.isDynamic = false then some (st, [])
  else
    let rel := releaseCalls st.info st.data
    if size.x = 0 then
      some ({ info := { st.info with size := size },
              data := { st.data with index := 0, depth := 0 },
              nextName := st.nextName }, rel)
    else if complete = false then none
    else some (onResizeAllocState st size, rel ++ onResizeAllocCalls st size)

/-
  Pipeline classification (pipeline.hpp).
-/

/-- Three-component vector (Vec3u32 of types/vec.hpp). -/
structure Vec3 (α : Type) where
  x : α
  y : α
  z : α
deriving DecidableEq, Repr

/-- A shader stage as its underlying u8 enumerator value.
Modelled from the spec where graphics/enums.hpp is not under src/: the
graphics stages vertex..fragment occupy the low range in that order,
COMPUTE sits above them, and raytracing stages carry the tag bit 0x40
(glxShaderStage in the OpenGL translation unit rejects any stage with
`u8(stage) & 0x40` and accepts COMPUTE, so COMPUTE's bit 0x40 is clear
and raytracing stages have it set). -/
structure ShaderStage where
  code : Nat
deriving DecidableEq, Repr

/-- ShaderStage::VERTEX. -/
def ShaderStage.VERTEX : ShaderStage := ⟨0x00⟩
/-- ShaderStage::GEOMETRY. -/
def ShaderStage.GEOMETRY : ShaderStage := ⟨0x01⟩
/-- ShaderStage::TESS_CTRL. -/
def ShaderStage.TESS_CTRL : ShaderStage := ⟨0x02⟩
/-- ShaderStage::TESS_EVAL. -/
def ShaderStage.TESS_EVAL : ShaderStage := ⟨0x03⟩
/-- ShaderStage::FRAGMENT. -/
def ShaderStage.FRAGMENT : ShaderStage := ⟨0x04⟩
/-- ShaderStage::COMPUTE (above the graphics range, raytracing bit clear). -/
def ShaderStage.COMPUTE : ShaderStage := ⟨0x20⟩
/-- ShaderStage::RAYGEN, a representative raytracing stage (bit 0x40 set). -/
def ShaderStage.RAYGEN : ShaderStage := ⟨0x40⟩

/-- The raytracing tag test `u8(stage) & u8(ShaderStage::PROPERTY_IS_RAYTRACING)`
with PROPERTY_IS_RAYTRACING = 0x40. -/
def ShaderStage.isRaytracingStage (s : ShaderStage) : Bool :=
  decide (s.code &&& 0x40 ≠ 0)

/-- One stage entry's payload: a binary index into the pipeline's binary
list plus an entry-point name (Pair<u32, String>). -/
structure StageInfo where
  binaryId : Nat
  entryPoint : String
deriving DecidableEq, Repr

/-- The part of Pipeline::Info that the classification predicates read:
the stage map (embedded as an association list whose head is
stages.begin()) and the compute group size. -/
structure PipelineInfo where
  stages : List (ShaderStage × StageInfo)
  groupSize : Vec3 Nat
deriving DecidableEq, Repr

/-- Pipeline::Info::hasStage(stage):
`stages.find(stage) != stages.end()`. -/
def PipelineInfo.hasStage (i : PipelineInfo) (s : ShaderStage) : Bool :=
  i.stages.any (fun p => p.1 = s)

/-- Pipeline::Info::isCompute():
`stages.size() == 1 && hasStage(ShaderStage::COMPUTE)`. -/
def PipelineInfo.isCompute (i : PipelineInfo) : Bool :=
  i.stages.length = 1 && i.hasStage ShaderStage.COMPUTE

/-- Pipeline::Info::isRaytracing():
`stages.size() >= 1 && u8(stages.begin()->first) & u8(PROPERTY_IS_RAYTRACING)`. -/
def PipelineInfo.isRaytracing (i : PipelineInfo) : Bool :=
  decide (1 ≤ i.stages.length) &&
  (match i.stages.head? with
   | some p => ShaderStage.isRaytracingStage p.1
   | none => false)

/-- Pipeline::Info::isGraphics(): `!isCompute() && !isRaytracing()`. -/
def PipelineInfo.isGraphics (i : PipelineInfo) : Bool :=
  !i.isCompute && !i.isRaytracing

/-- The compute constructor of Pipeline::Info:
`stages{{ ShaderStage::COMPUTE, { 0, entryPoint } }}, binaries{ computeShader },
groupSize(groupSize)`. -/
def PipelineInfo.computeCtor (groupSize : Vec3 Nat) (entryPoint : String) :
    PipelineInfo :=
  { stages := [(ShaderStage.COMPUTE, ⟨0, entryPoint⟩)], groupSize := groupSize }

/-
  Concrete instances used by witness and counterexample theorems.
-/

/-- A one-channel vertex format with stride 8. -/
def attr0 : BufferAttributes := ⟨[⟨0, GPUFormat.RG32f, 0⟩], 8, false⟩

/-- A one-channel vertex format with stride 4. -/
def attr1 : BufferAttributes := ⟨[⟨1, GPUFormat.R32f, 0⟩], 4, false⟩

/-- A layout over a supplied 24-byte vertex buffer (3 elements of stride 8). -/
def lay0 : BufferLayout := ⟨attr0, some ⟨GPUBufferType.VERTEX, 24⟩, 0⟩

/-- An auto-allocated layout with 12 bytes of initial data (3 elements of
stride 4). -/
def lay1 : BufferLayout := ⟨attr1, none, 12⟩

/-- A layout over a supplied 16-byte vertex buffer (4 elements of stride 4). -/
def lay2 : BufferLayout := ⟨attr1, some ⟨GPUBufferType.VERTEX, 16⟩, 0⟩

/-- Two vertex layouts agreeing on 3 elements, no index layout. -/
def pbGoodInfo : PBInfo := ⟨[lay0, lay1], none⟩

/-- Two vertex layouts with differing element counts (3 and 4). -/
def pbBadInfo : PBInfo := ⟨[lay0, lay2], none⟩

/-- One vertex layout over a supplied zero-size vertex buffer: every layout
resolves to element count 0. -/
def pbZeroInfo : PBInfo := ⟨[⟨attr1, some ⟨GPUBufferType.VERTEX, 0⟩, 0⟩], none⟩

/-- A context whose range cache holds only default entries, with no texture
views and fresh-name counter 1. -/
def emptyDescCtx : DescCtx := ⟨fun _ => BoundRange.zero, fun _ => [], 1⟩

/-- A texture store (unused by the buffer-slot witnesses). -/
def texStore0 : Nat → TexObj := fun _ => ⟨0, GPUFormat.RGBA8⟩

/-- A uniform-buffer slot with global id 3 and local binding point 2. -/
def slotC : DescriptorSlot := ⟨3, 2, ResourceType.CBUFFER, false⟩

/-- Buffer 5 bound at byte range [0, 16). -/
def subBuf0 : Subresource := ⟨ResourceKind.buffer 5, 0, 16, ⟨0, 1, 0, 1, TextureType.TEXTURE_2D⟩⟩

/-- Buffer 5 bound at byte range [16, 48) — a different range. -/
def subBuf1 : Subresource := ⟨ResourceKind.buffer 5, 16, 32, ⟨0, 1, 0, 1, TextureType.TEXTURE_2D⟩⟩

/-- A resources map binding global id 3 to subBuf0. -/
def resMap0 : List (Nat × Subresource) := [(3, subBuf0)]

/-- A resources map binding global id 3 to subBuf1. -/
def resMap1 : List (Nat × Subresource) := [(3, subBuf1)]

/-- A dynamic framebuffer with viewportScale 1/2 whose current size is
already (400, 300). -/
def fbHalf : FBState :=
  { info := { size := ⟨400, 300⟩, colorFormats := [GPUFormat.RGBA8],
              depthFormat := DepthFormat.NONE, keepDepth := false,
              samples := 1, isDynamic := true, viewportScale := 1/2 },
    data := { index := 4, depth := 0, renderTextures := [6] }, nextName := 7 }

/-- A static framebuffer (isDynamic = false). -/
def fbStatic : FBState :=
  { info := { size := ⟨256, 256⟩, colorFormats := [GPUFormat.RGBA8],
              depthFormat := DepthFormat.D32F, keepDepth := true,
              samples := 1, isDynamic := false, viewportScale := 1 },
    data := { index := 4, depth := 5, renderTextures := [6] }, nextName := 7 }

/-- A dynamic framebuffer with scale 1 and current size (1, 1), holding a
framebuffer name and one color texture. -/
def fbEdge : FBState :=
  { info := { size := ⟨1, 1⟩, colorFormats := [GPUFormat.RGBA8],
              depthFormat := DepthFormat.NONE, keepDepth := false,
              samples := 1, isDynamic := true, viewportScale := 1 },
    data := { index := 5, depth := 0, renderTextures := [7] }, nextName := 8 }

/-- A context with a bound framebuffer, scissor test enabled and a cached
scissor rectangle at offset (1, 1) size (2, 2). -/
def vsCtx0 : VSCtx :=
  ⟨some ⟨640, 480⟩, ⟨0, 0⟩, ⟨0, 0⟩, ⟨1, 1⟩, ⟨2, 2⟩, true⟩

/-- A context with no bound framebuffer and the scissor test disabled. -/
def vsCtx1 : VSCtx :=
  ⟨none, ⟨0, 0⟩, ⟨0, 0⟩, ⟨0, 0⟩, ⟨0, 0⟩, false⟩

/-- The context glxSetViewportAndScissor produces from vsCtx0 at size
(100, 50) offset (5, 5): viewport updated, scissor rectangle untouched,
scissor test disabled. -/
def vsOut : VSCtx :=
  ⟨some ⟨640, 480⟩, ⟨5, 5⟩, ⟨100, 50⟩, ⟨1, 1⟩, ⟨2, 2⟩, false⟩

/-- The context glxSetScissor produces from vsCtx1 at size (30, 40) offset
(2, 3): scissor test enabled and scissor rectangle updated. -/
def vsOut2 : VSCtx :=
  ⟨none, ⟨0, 0⟩, ⟨0, 0⟩, ⟨2, 3⟩, ⟨30, 40⟩, true⟩

/-
  Theorems.
-/

/-- Helper: the COMPUTE stage's raytracing tag bit is clear. -/
theorem compute_stage_not_rt :
    ShaderStage.isRaytracingStage ShaderStage.COMPUTE = false := rfl

/-- Helper: isCompute holds exactly when the declared stage keys form the
singleton list [COMPUTE]. -/
theorem isCompute_iff (i : PipelineInfo) :
    i.isCompute = true ↔ i.stages.map Prod.fst = [ShaderStage.COMPUTE] := by
  unfold PipelineInfo.isCompute PipelineInfo.hasStage
  rcases hs : i.stages with _ | ⟨p, t⟩
  · simp
  · rcases t with _ | ⟨q, t'⟩
    · simp
    · simp

/-- Helper: isRaytracing holds exactly when there is a first declared
stage and its raytracing tag bit is set. -/
theorem isRaytracing_iff (i : PipelineInfo) :
    i.isRaytracing = true ↔
      ∃ p rest, i.stages = p :: rest ∧
        ShaderStage.isRaytracingStage p.1 = true := by
  unfold PipelineInfo.isRaytracing
  rcases hs : i.stages with _ | ⟨p, t⟩
  · simp
  · simp

/-- Helper: a pipeline info that classifies as compute has COMPUTE as its
single stage, whose raytracing tag bit is clear, so it does not classify
as raytracing. -/
theorem isCompute_not_raytracing (i : PipelineInfo) (h : i.isCompute = true) :
    i.isRaytracing = false := by
  have hmap := (isCompute_iff i).mp h
  cases hx : i.isRaytracing
  · rfl
  · obtain ⟨p, rest, heq, htag⟩ := (isRaytracing_iff i).mp hx
    rw [heq] at hmap
    simp at hmap
    rw [hmap.1] at htag
    rw [compute_stage_not_rt] at htag
    exact Bool.noConfusion htag

/-- Helper: the compute constructor's info does not classify as
raytracing. -/
theorem computeCtor_not_raytracing (gs : Vec3 Nat) (entry : String) :
    (PipelineInfo.computeCtor gs entry).isRaytracing = false :=
  isCompute_not_raytracing (PipelineInfo.computeCtor gs entry) rfl

/-- C9: a Pipeline::Info built by the compute constructor classifies as
compute and as neither graphics nor raytracing; in general isCompute holds
iff the stage set is exactly the singleton COMPUTE, isRaytracing iff the
first declared stage carries the raytracing tag bit, isGraphics iff
neither, and exactly one of the three classifications holds for any
instance. -/
theorem pipeline_classification (gs : Vec3 Nat) (entry : String)
    (i : PipelineInfo) :
    (PipelineInfo.computeCtor gs entry).isCompute = true ∧
    (PipelineInfo.computeCtor gs entry).isGraphics = false ∧
    (PipelineInfo.computeCtor gs entry).isRaytracing = false ∧
    (i.isCompute = true ↔ i.stages.map Prod.fst = [ShaderStage.COMPUTE]) ∧
    (i.isRaytracing = true ↔
      ∃ p rest, i.stages = p :: rest ∧ ShaderStage.isRaytracingStage p.1 = true) ∧
    (i.isGraphics = true ↔ (i.isCompute = false ∧ i.isRaytracing = false)) ∧
    ((i.isCompute = true ∧ i.isRaytracing = false ∧ i.isGraphics = false) ∨
     (i.isCompute = false ∧ i.isRaytracing = true ∧ i.isGraphics = false) ∨
     (i.isCompute = false ∧ i.isRaytracing = false ∧ i.isGraphics = true)) := by
  refine ⟨rfl, ?_, computeCtor_not_raytracing gs entry, isCompute_iff i,
    isRaytracing_iff i, ?_, ?_⟩
  · unfold PipelineInfo.isGraphics
    rw [computeCtor_not_raytracing gs entry]
    rfl
  · unfold PipelineInfo.isGraphics
    simp
  · by_cases hc : i.isCompute = true
    · have hr := isCompute_not_raytracing i hc
      refine Or.inl ⟨hc, hr, ?_⟩
      unfold PipelineInfo.isGraphics
      rw [hc]
      rfl
    · have hc' : i.isCompute = false := by
        revert hc
        cases i.isCompute <;> simp
      by_cases hr : i.isRaytracing = true
      · refine Or.inr (Or.inl ⟨hc', hr, ?_⟩)
        unfold PipelineInfo.isGraphics
        rw [hc', hr]
        rfl
      · have hr' : i.isRaytracing = false := by
          revert hr
          cases i.isRaytracing <;> simp
        refine Or.inr (Or.inr ⟨hc', hr', ?_⟩)
        unfold PipelineInfo.isGraphics
        rw [hc', hr']
        rfl

/-- C4: during descriptor resolution, a slot whose declared global id has
no entry in the bound-resources map is silently skipped: no native call is
issued and the context — in particular its cache entry for that slot — is
left unchanged. -/
theorem bindSlot_unbound_skipped (T : Nat → TexObj)
    (R : List (Nat × Subresource)) (ctx : DescCtx) (slot : DescriptorSlot)
    (h : lookupResource R slot.globalId = none) :
    bindSlot T R ctx slot = (ctx, []) := by
  unfold bindSlot
  rw [h]

/-- Witness for bindSlot_unbound_skipped at an empty resources map. -/
theorem bindSlot_unbound_skipped_witness :
    bindSlot texStore0 [] emptyDescCtx slotC = (emptyDescCtx, []) :=
  bindSlot_unbound_skipped texStore0 [] emptyDescCtx slotC rfl

/-- C7: onResize is a no-op — same state (size and attachment names) and
no native calls — whenever the surface is static, or whenever the computed
new size equals the current size. -/
theorem onResize_noop (c : Bool) (st : FBState) (siz : Vec2 Nat)
    (h : st.info.isDynamic = false ∨ computedFBSize st.info siz = st.info.size) :
    onResize c st siz = some (st, []) := by
  unfold onResize
  rcases h with h | h
  · rw [if_pos (Or.inr h)]
  · rw [if_pos (Or.inl h.symm)]

/-- Witness for onResize_noop: a static surface ignores a resize to an
arbitrary size. -/
theorem onResize_noop_witness :
    onResize true fbStatic ⟨123, 456⟩ = some (fbStatic, []) :=
  onResize_noop true fbStatic ⟨123, 456⟩ (Or.inl rfl)

/-- C6: for a dynamic surface, any completed onResize leaves the reported
size equal to floor(viewportScale * newBackbufferSize) componentwise. -/
theorem onResize_dynamic_reports_scaled (c : Bool) (st : FBState)
    (siz : Vec2 Nat) (st' : FBState) (calls : List FBCall)
    (hdyn : st.info.isDynamic = true)
    (h : onResize c st siz = some (st', calls)) :
    st'.info.size = computedFBSize st.info siz := by
  unfold onResize at h
  by_cases h0 : st.info.size = computedFBSize st.info siz ∨
      st.info.isDynamic = false
  · rw [if_pos h0] at h
    obtain ⟨rfl, -⟩ := Prod.mk.injEq .. ▸ Option.some.injEq .. ▸ h
    rcases h0 with h0 | h0
    · exact h0
    · rw [hdyn] at h0
      exact absurd h0 (by simp)
  · rw [if_neg h0] at h
    by_cases hw : (computedFBSize st.info siz).x = 0
    · rw [if_pos hw] at h
      obtain ⟨rfl, -⟩ := Prod.mk.injEq .. ▸ Option.some.injEq .. ▸ h
      rfl
    · rw [if_neg hw] at h
      by_cases hc : c = false
      · rw [if_pos hc] at h
        exact absurd h (by simp)
      · rw [if_neg hc] at h
        obtain ⟨rfl, -⟩ := Prod.mk.injEq .. ▸ Option.some.injEq .. ▸ h
        rfl

/-- Helper: viewportScale 1/2 at backbuffer size (800, 600) computes
(400, 300). -/
theorem fbHalf_computed :
    computedFBSize fbHalf.info ⟨800, 600⟩ = ⟨400, 300⟩ := by
  unfold computedFBSize u32trunc fbHalf
  norm_num
  exact ⟨rfl, rfl⟩

/-- Witness for onResize_dynamic_reports_scaled: viewportScale 1/2 at
backbuffer size (800, 600) reports (400, 300). -/
theorem onResize_dynamic_reports_scaled_witness :
    fbHalf.info.size = computedFBSize fbHalf.info ⟨800, 600⟩ ∧
    computedFBSize fbHalf.info ⟨800, 600⟩ = ⟨400, 300⟩ :=
  ⟨onResize_dynamic_reports_scaled true fbHalf ⟨800, 600⟩ fbHalf [] rfl
     (onResize_noop true fbHalf ⟨800, 600⟩ (Or.inr fbHalf_computed)),
   fbHalf_computed⟩

/-- C5: present fails fatally when an intermediate is given whose size
differs from the swapchain's; with no intermediate it only warns and still
executes the command lists and presents the swapchain; every completed
present advances the frame counter by exactly one. -/
theorem present_validation (i : FBPresent) (sc : SwapchainInfo) (n f : Nat)
    (im : Option FBPresent) (sw : Option SwapchainInfo)
    (evs : List PresentEvent) (f' : Nat) :
    (i.size ≠ sc.size → present (some i) (some sc) n f = none) ∧
    (∃ out, present none (some sc) n f = some (out, f + 1) ∧
       PresentEvent.warnNoIntermediate ∈ out ∧
       PresentEvent.executeLists n ∈ out ∧
       PresentEvent.swapchainPresent ∈ out) ∧
    (present im sw n f = some (evs, f') → f' = f + 1) := by
  refine ⟨?_, ?_, ?_⟩
  · intro h
    simp [present, h]
  · refine ⟨[PresentEvent.warnNoIntermediate, PresentEvent.swapchainBind,
      PresentEvent.updateContext, PresentEvent.executeLists n,
      PresentEvent.swapchainPresent], rfl, ?_, ?_, ?_⟩ <;> simp
  · intro h
    rcases sw with _ | sc'
    · simp [present] at h
    · rcases im with _ | i'
      · simp [present] at h
        exact h.2.symm
      · simp only [present] at h
        split at h
        · exact absurd h (by simp)
        · split at h
          · exact absurd h (by simp)
          · rw [Option.some.injEq, Prod.mk.injEq] at h
            exact h.2.symm

/-- Witness for present_validation: a 4x4 intermediate against a 4x3
swapchain is fatal, and a completed present advances frame 10 to 11. -/
theorem present_validation_witness :
    present (some ⟨⟨4, 4⟩, 1, 9⟩) (some ⟨⟨4, 3⟩⟩) 2 10 = none ∧
    (11 : Nat) = 10 + 1 :=
  ⟨(present_validation ⟨⟨4, 4⟩, 1, 9⟩ ⟨⟨4, 3⟩⟩ 2 10 none (some ⟨⟨4, 3⟩⟩)
      [PresentEvent.warnNoIntermediate, PresentEvent.swapchainBind,
       PresentEvent.updateContext, PresentEvent.executeLists 2,
       PresentEvent.swapchainPresent] 11).1 (by decide),
   (present_validation ⟨⟨4, 4⟩, 1, 9⟩ ⟨⟨4, 3⟩⟩ 2 10 none (some ⟨⟨4, 3⟩⟩)
      [PresentEvent.warnNoIntermediate, PresentEvent.swapchainBind,
       PresentEvent.updateContext, PresentEvent.executeLists 2,
       PresentEvent.swapchainPresent] 11).2.2 (by decide)⟩

/-- Helper: a BoundRange equals a literal exactly when its three fields
match — the form of the source's dedup condition
`bound.handle == ... && bound.offset == ... && bound.size == ...`. -/
theorem boundRange_eq_iff (b : BoundRange) (h o s : Nat) :
    b = ⟨h, o, s⟩ ↔ b.handle = h ∧ b.offset = o ∧ b.size = s := by
  obtain ⟨bh, bo, bs⟩ := b
  simp

/-- Helper: on a buffer-bound slot, bindSlot is exactly the dedup-guarded
range bind: skip when the cached triple matches, else bind and record. -/
theorem bindSlot_buffer_eq (T : Nat → TexObj) (R : List (Nat × Subresource))
    (ctx : DescCtx) (slot : DescriptorSlot) (sub : Subresource) (h : Nat)
    (hl : lookupResource R slot.globalId = some sub)
    (hk : sub.kind = ResourceKind.buffer h) :
    bindSlot T R ctx slot =
      if ctx.boundByBase (slot.localId, bufferBindPoint slot) =
          ⟨h, sub.bufOffset, sub.bufSize⟩ then (ctx, [])
      else
        ({ ctx with boundByBase := (Function.update ctx.boundByBase
             (slot.localId, bufferBindPoint slot)
             ⟨h, sub.bufOffset, sub.bufSize⟩) },
         [DescCall.bindBufferRange (bufferBindPoint slot) slot.localId h
            sub.bufOffset sub.bufSize]) := by
  simp only [bindSlot, hl, hk]
  simp only [boundRange_eq_iff]

/-- C2: when descriptor resolution binds a buffer resource to a slot, the
native glBindBufferRange call is issued iff the (handle, offset, size)
triple differs from the one the context cache last recorded for the
(local binding point, bind-point category) key; after the bind the cache
holds the triple, so binding the same range to the same slot again issues
no call, while binding a different range afterwards issues a second
call. -/
theorem bindSlot_buffer_dedup (T : Nat → TexObj) (R : List (Nat × Subresource))
    (ctx : DescCtx) (slot : DescriptorSlot) (sub : Subresource) (h : Nat)
    (hl : lookupResource R slot.globalId = some sub)
    (hk : sub.kind = ResourceKind.buffer h) :
    ((bindSlot T R ctx slot).2 = [] ↔
       ctx.boundByBase (slot.localId, bufferBindPoint slot) =
         ⟨h, sub.bufOffset, sub.bufSize⟩) ∧
    ((bindSlot T R ctx slot).2 ≠ [] →
       (bindSlot T R ctx slot).2 =
         [DescCall.bindBufferRange (bufferBindPoint slot) slot.localId h
            sub.bufOffset sub.bufSize]) ∧
    (bindSlot T R ctx slot).1.boundByBase (slot.localId, bufferBindPoint slot) =
      ⟨h, sub.bufOffset, sub.bufSize⟩ ∧
    (bindSlot T R (bindSlot T R ctx slot).1 slot).2 = [] ∧
    (∀ R' sub' h', lookupResource R' slot.globalId = some sub' →
       sub'.kind = ResourceKind.buffer h' →
       (⟨h', sub'.bufOffset, sub'.bufSize⟩ : BoundRange) ≠
         ⟨h, sub.bufOffset, sub.bufSize⟩ →
       (bindSlot T R' (bindSlot T R ctx slot).1 slot).2 =
         [DescCall.bindBufferRange (bufferBindPoint slot) slot.localId h'
            sub'.bufOffset sub'.bufSize]) := by
  have hfst : (bindSlot T R ctx slot).1.boundByBase
      (slot.localId, bufferBindPoint slot) =
      ⟨h, sub.bufOffset, sub.bufSize⟩ := by
    rw [bindSlot_buffer_eq T R ctx slot sub h hl hk]
    by_cases hb : ctx.boundByBase (slot.localId, bufferBindPoint slot) =
        ⟨h, sub.bufOffset, sub.bufSize⟩
    · rw [if_pos hb]
      exact hb
    · rw [if_neg hb]
      exact Function.update_same _ _ _
  refine ⟨?_, ?_, hfst, ?_, ?_⟩
  · rw [bindSlot_buffer_eq T R ctx slot sub h hl hk]
    by_cases hb : ctx.boundByBase (slot.localId, bufferBindPoint slot) =
        ⟨h, sub.bufOffset, sub.bufSize⟩
    · rw [if_pos hb]
      simp [hb]
    · rw [if_neg hb]
      simp [hb]
  · rw [bindSlot_buffer_eq T R ctx slot sub h hl hk]
    by_cases hb : ctx.boundByBase (slot.localId, bufferBindPoint slot) =
        ⟨h, sub.bufOffset, sub.bufSize⟩
    · rw [if_pos hb]
      intro hne
      exact absurd rfl hne
    · rw [if_neg hb]
      intro _
      rfl
  · rw [bindSlot_buffer_eq T R _ slot sub h hl hk, if_pos hfst]
  · intro R' sub' h' hl' hk' hne
    rw [bindSlot_buffer_eq T R' _ slot sub' h' hl' hk',
      if_neg (fun he => hne (by rw [← he]; exact hfst))]

/-- Witness for bindSlot_buffer_dedup: a fresh cache binds buffer 5 range
[0, 16) once, rebinding it is a no-op, and rebinding range [16, 48) issues
a second call. -/
theorem bindSlot_buffer_dedup_witness :
    (bindSlot texStore0 resMap0 emptyDescCtx slotC).1.boundByBase
        (slotC.localId, bufferBindPoint slotC) = ⟨5, 0, 16⟩ ∧
    (bindSlot texStore0 resMap0
        (bindSlot texStore0 resMap0 emptyDescCtx slotC).1 slotC).2 = [] ∧
    (bindSlot texStore0 resMap1
        (bindSlot texStore0 resMap0 emptyDescCtx slotC).1 slotC).2 =
      [DescCall.bindBufferRange (bufferBindPoint slotC) slotC.localId 5 16 32] :=
  ⟨(bindSlot_buffer_dedup texStore0 resMap0 emptyDescCtx slotC subBuf0 5
      rfl rfl).2.2.1,
   (bindSlot_buffer_dedup texStore0 resMap0 emptyDescCtx slotC subBuf0 5
      rfl rfl).2.2.2.1,
   (bindSlot_buffer_dedup texStore0 resMap0 emptyDescCtx slotC subBuf0 5
      rfl rfl).2.2.2.2 resMap1 subBuf1 5 rfl rfl (by decide)⟩

/-- Helper: glxSetViewport never touches the scissor fields or the
scissor-enable flag, and only issues glViewport calls. -/
theorem glxSetViewport_scissor_fields (ctx : VSCtx) (size : Vec2 Nat)
    (offset : Vec2 Int) (ctx' : VSCtx) (calls : List VSCall)
    (h : glxSetViewport ctx size offset = some (ctx', calls)) :
    ctx'.scissorOff = ctx.scissorOff ∧ ctx'.scissorSize = ctx.scissorSize ∧
    ctx'.enableScissor = ctx.enableScissor ∧
    (∀ c ∈ calls, ∃ o s, c = VSCall.viewport o s) := by
  unfold glxSetViewport at h
  split at h
  · exact absurd h (by simp)
  · split at h
    · rw [Option.some.injEq, Prod.mk.injEq] at h
      obtain ⟨rfl, rfl⟩ := h
      exact ⟨rfl, rfl, rfl, by simp⟩
    · rw [Option.some.injEq, Prod.mk.injEq] at h
      obtain ⟨rfl, rfl⟩ := h
      exact ⟨rfl, rfl, rfl, by simp⟩

/-- Helper: a completed glxSetScissor leaves the scissor test enabled, and
when the requested size is in bounds (no zero component) the cached
scissor rectangle afterwards is the requested one. -/
theorem glxSetScissor_result (ctx : VSCtx) (size : Vec2 Nat)
    (offset : Vec2 Int) (ctx' : VSCtx) (calls : List VSCall)
    (h : glxSetScissor ctx size offset = some (ctx', calls)) :
    ctx'.enableScissor = true ∧
    (size.x ≠ 0 → size.y ≠ 0 →
      ctx'.scissorOff = offset ∧ ctx'.scissorSize = size) := by
  unfold glxSetScissor at h
  split at h
  · exact absurd h (by simp)
  · rename_i sz hsz
    unfold resolveViewSize at hsz
    by_cases hz : size.x = 0 ∨ size.y = 0
    · rw [if_pos hz] at hsz
      split at h
      · simp only [] at h
        split at h
        · simp only [Option.some.injEq, Prod.mk.injEq] at h
          obtain ⟨rfl, rfl⟩ := h
          exact ⟨rfl, fun hx hy => absurd hz (by simp [hx, hy])⟩
        · simp only [Option.some.injEq, Prod.mk.injEq] at h
          obtain ⟨rfl, rfl⟩ := h
          exact ⟨rfl, fun hx hy => absurd hz (by simp [hx, hy])⟩
      · rename_i hen
        simp only [] at h
        split at h
        · simp only [Option.some.injEq, Prod.mk.injEq] at h
          obtain ⟨rfl, rfl⟩ := h
          exact ⟨by simpa using hen, fun hx hy => absurd hz (by simp [hx, hy])⟩
        · simp only [Option.some.injEq, Prod.mk.injEq] at h
          obtain ⟨rfl, rfl⟩ := h
          exact ⟨by simpa using hen, fun hx hy => absurd hz (by simp [hx, hy])⟩
    · rw [if_neg hz, Option.some.injEq] at hsz
      subst hsz
      split at h
      · simp only [] at h
        split at h
        · simp only [Option.some.injEq, Prod.mk.injEq] at h
          obtain ⟨rfl, rfl⟩ := h
          exact ⟨rfl, fun _ _ => ⟨rfl, rfl⟩⟩
        · rename_i hrect
          simp only [Option.some.injEq, Prod.mk.injEq] at h
          obtain ⟨rfl, rfl⟩ := h
          push_neg at hrect
          exact ⟨rfl, fun _ _ => ⟨hrect.1, hrect.2⟩⟩
      · rename_i hen
        simp only [] at h
        split at h
        · simp only [Option.some.injEq, Prod.mk.injEq] at h
          obtain ⟨rfl, rfl⟩ := h
          exact ⟨by simpa using hen, fun _ _ => ⟨rfl, rfl⟩⟩
        · rename_i hrect
          simp only [Option.some.injEq, Prod.mk.injEq] at h
          obtain ⟨rfl, rfl⟩ := h
          push_neg at hrect
          exact ⟨by simpa using hen, fun _ _ => ⟨hrect.1, hrect.2⟩⟩

/-- C10: glxSetViewportAndScissor disables scissor testing (emitting
glDisable exactly when it was enabled) and updates only viewport state: the
cached scissor rectangle is unchanged and no glScissor or glEnable call is
issued — unlike glxSetScissor, which leaves the scissor test enabled and
(for an in-bounds size) records the requested rectangle. -/
theorem setViewportAndScissor_scissor_untouched (ctx : VSCtx)
    (size : Vec2 Nat) (offset : Vec2 Int) (ctx' : VSCtx) (calls : List VSCall)
    (h : glxSetViewportAndScissor ctx size offset = some (ctx', calls))
    (ctx₂ : VSCtx) (size₂ : Vec2 Nat) (offset₂ : Vec2 Int) (ctx₂' : VSCtx)
    (calls₂ : List VSCall)
    (h₂ : glxSetScissor ctx₂ size₂ offset₂ = some (ctx₂', calls₂)) :
    ctx'.scissorOff = ctx.scissorOff ∧
    ctx'.scissorSize = ctx.scissorSize ∧
    ctx'.enableScissor = false ∧
    (VSCall.disableScissorTest ∈ calls ↔ ctx.enableScissor = true) ∧
    (∀ o s, VSCall.scissor o s ∉ calls) ∧
    VSCall.enableScissorTest ∉ calls ∧
    ctx₂'.enableScissor = true ∧
    (size₂.x ≠ 0 → size₂.y ≠ 0 →
      ctx₂'.scissorOff = offset₂ ∧ ctx₂'.scissorSize = size₂) := by
  obtain ⟨hsc2, hrect2⟩ := glxSetScissor_result ctx₂ size₂ offset₂ ctx₂' calls₂ h₂
  unfold glxSetViewportAndScissor at h
  by_cases he : ctx.enableScissor
  · rw [if_pos he, if_pos he] at h
    simp only [] at h
    split at h
    · exact Option.noConfusion h
    · rename_i ctxv callsv hv
      rw [Option.some.injEq, Prod.mk.injEq] at h
      obtain ⟨rfl, rfl⟩ := h
      obtain ⟨hso, hss, hen, honly⟩ :=
        glxSetViewport_scissor_fields _ size offset _ callsv hv
      refine ⟨hso, hss, hen, ?_, ?_, ?_, hsc2, hrect2⟩
      · simp [he]
      · intro o s hmem
        rcases List.mem_append.mp hmem with hm | hm
        · simp at hm
        · obtain ⟨o', s', he'⟩ := honly _ hm
          exact VSCall.noConfusion he'
      · intro hmem
        rcases List.mem_append.mp hmem with hm | hm
        · simp at hm
        · obtain ⟨o', s', he'⟩ := honly _ hm
          exact VSCall.noConfusion he'
  · rw [if_neg he, if_neg he] at h
    simp only [] at h
    split at h
    · exact Option.noConfusion h
    · rename_i ctxv callsv hv
      rw [Option.some.injEq, Prod.mk.injEq] at h
      obtain ⟨rfl, rfl⟩ := h
      obtain ⟨hso, hss, hen, honly⟩ :=
        glxSetViewport_scissor_fields _ size offset _ callsv hv
      refine ⟨hso, hss, by rw [hen]; simpa using he, ?_, ?_, ?_, hsc2, hrect2⟩
      · simp only [List.nil_append]
        constructor
        · intro hmem
          obtain ⟨o', s', he'⟩ := honly _ hmem
          exact VSCall.noConfusion he'
        · intro hct
          exact absurd hct (by simpa using he)
      · intro o s hmem
        simp only [List.nil_append] at hmem
        obtain ⟨o', s', he'⟩ := honly _ hmem
        exact VSCall.noConfusion he'
      · intro hmem
        simp only [List.nil_append] at hmem
        obtain ⟨o', s', he'⟩ := honly _ hmem
        exact VSCall.noConfusion he'

/-- Witness for setViewportAndScissor_scissor_untouched at concrete
contexts: the scissor rectangle of vsCtx0 survives, its scissor test ends
disabled, and a glxSetScissor call on vsCtx1 ends enabled with the new
rectangle. -/
theorem setViewportAndScissor_witness :
    vsOut.scissorOff = vsCtx0.scissorOff ∧
    vsOut.scissorSize = vsCtx0.scissorSize ∧
    vsOut.enableScissor = false ∧
    vsOut2.enableScissor = true :=
  ⟨(setViewportAndScissor_scissor_untouched vsCtx0 ⟨100, 50⟩ ⟨5, 5⟩ vsOut
      [VSCall.disableScissorTest, VSCall.viewport ⟨5, 5⟩ ⟨100, 50⟩] (by decide)
      vsCtx1 ⟨30, 40⟩ ⟨2, 3⟩ vsOut2
      [VSCall.enableScissorTest, VSCall.scissor ⟨2, 3⟩ ⟨30, 40⟩] (by decide)).1,
   (setViewportAndScissor_scissor_untouched vsCtx0 ⟨100, 50⟩ ⟨5, 5⟩ vsOut
      [VSCall.disableScissorTest, VSCall.viewport ⟨5, 5⟩ ⟨100, 50⟩] (by decide)
      vsCtx1 ⟨30, 40⟩ ⟨2, 3⟩ vsOut2
      [VSCall.enableScissorTest, VSCall.scissor ⟨2, 3⟩ ⟨30, 40⟩] (by decide)).2.1,
   (setViewportAndScissor_scissor_untouched vsCtx0 ⟨100, 50⟩ ⟨5, 5⟩ vsOut
      [VSCall.disableScissorTest, VSCall.viewport ⟨5, 5⟩ ⟨100, 50⟩] (by decide)
      vsCtx1 ⟨30, 40⟩ ⟨2, 3⟩ vsOut2
      [VSCall.enableScissorTest, VSCall.scissor ⟨2, 3⟩ ⟨30, 40⟩] (by decide)).2.2.1,
   (setViewportAndScissor_scissor_untouched vsCtx0 ⟨100, 50⟩ ⟨5, 5⟩ vsOut
      [VSCall.disableScissorTest, VSCall.viewport ⟨5, 5⟩ ⟨100, 50⟩] (by decide)
      vsCtx1 ⟨30, 40⟩ ⟨2, 3⟩ vsOut2
      [VSCall.enableScissorTest, VSCall.scissor ⟨2, 3⟩ ⟨30, 40⟩]
      (by decide)).2.2.2.2.2.2.1⟩

/-- Helper: on an in-bounds candidate list, matchFormats is the
element-wise prefix test against the layouts' formats. -/
theorem matchFormats_iff (as : List BufferAttributes) (vs : List BufferLayout)
    (h : as.length ≤ vs.length) :
    matchFormats as vs = true ↔
      ∃ rest, vs.map BufferLayout.formats = as ++ rest := by
  induction as generalizing vs with
  | nil => simp [matchFormats]
  | cons a as ih =>
    cases vs with
    | nil => simp at h
    | cons v vs =>
      simp only [matchFormats]
      by_cases ha : a = v.formats
      · rw [if_pos ha, ih vs (by simpa using h)]
        constructor
        · rintro ⟨rest, hr⟩
          exact ⟨rest, by simp [hr, ha]⟩
        · rintro ⟨rest, hr⟩
          simp only [List.map_cons, List.cons_append, List.cons.injEq] at hr
          exact ⟨rest, hr.2⟩
      · rw [if_neg ha]
        constructor
        · intro hfalse
          exact absurd hfalse (by simp)
        · rintro ⟨rest, hr⟩
          simp only [List.map_cons, List.cons_append, List.cons.injEq] at hr
          exact absurd hr.1.symm ha

/-- C3 counterexample: a buffer with two vertex layouts accepts the
one-entry candidate [attr0] (a strict prefix), although that candidate is
not element-wise equal to the buffer's format list — the source loop only
compares the first layout.size() entries. -/
theorem matchLayout_strict_prefix_counterexample :
    matchLayout pbGoodInfo [attr0] = true ∧
    [attr0] ≠ pbGoodInfo.vertexLayout.map BufferLayout.formats ∧
    pbGoodInfo.vertexLayout.length = 2 := by
  decide

/-- C3 (amended): for an in-bounds candidate list, matchLayout returns
true iff the candidate is an element-wise prefix of the buffer's vertex
layouts' formats; when the candidate's length equals the buffer's layout
count this coincides with element-wise equality of the two lists. -/
theorem matchLayout_prefix_characterization (info : PBInfo) (layout : List BufferAttributes)
    (h : layout.length ≤ info.vertexLayout.length) :
    (matchLayout info layout = true ↔
       ∃ rest, info.vertexLayout.map BufferLayout.formats = layout ++ rest) ∧
    (layout.length = info.vertexLayout.length →
      (matchLayout info layout = true ↔
         layout = info.vertexLayout.map BufferLayout.formats)) := by
  refine ⟨matchFormats_iff layout info.vertexLayout h, ?_⟩
  intro hlen
  rw [matchLayout, matchFormats_iff layout info.vertexLayout h]
  constructor
  · rintro ⟨rest, hr⟩
    have hlen2 := congrArg List.length hr
    simp only [List.length_map, List.length_append] at hlen2
    rw [← hlen] at hlen2
    have hrest : rest = [] := by
      have : rest.length = 0 := by omega
      exact List.length_eq_zero.mp this
    subst hrest
    rw [List.append_nil] at hr
    exact hr.symm
  · intro hr
    exact ⟨[], by rw [List.append_nil, hr]⟩

/-- Witness for matchLayout_prefix_characterization at a full-length candidate: the
two-entry candidate matching both layouts is accepted and coincides with
element-wise equality. -/
theorem matchLayout_prefix_characterization_witness :
    (matchLayout pbGoodInfo [attr0, attr1] = true ↔
       ∃ rest, pbGoodInfo.vertexLayout.map BufferLayout.formats =
         [attr0, attr1] ++ rest) ∧
    (matchLayout pbGoodInfo [attr0, attr1] = true ↔
       [attr0, attr1] = pbGoodInfo.vertexLayout.map BufferLayout.formats) :=
  ⟨(matchLayout_prefix_characterization pbGoodInfo [attr0, attr1] (by decide)).1,
   (matchLayout_prefix_characterization pbGoodInfo [attr0, attr1] (by decide)).2 (by decide)⟩

/-- Helper: a successful vertex-loop iteration returns a nonzero baseline
equal to the layout's element count, preserving a nonzero incoming
baseline. -/
theorem vertexStep_some (elements : Nat) (it : BufferLayout) (e' : Nat)
    (h : vertexStep elements it = some e') :
    e' ≠ 0 ∧ it.elements = e' ∧ (elements ≠ 0 → e' = elements) := by
  rcases hb : it.buffer with _ | b
  · simp only [vertexStep, hb] at h
    split_ifs at h with h1 h2 h3 h4
    · rw [Option.some.injEq] at h
      subst h
      have hnz : it.elements ≠ 0 := by
        intro hz
        exact h1 (by unfold BufferLayout.layoutSize; rw [hz, Nat.zero_mul])
      exact ⟨hnz, rfl, fun hc => absurd h4 hc⟩
    · rw [Option.some.injEq] at h
      subst h
      have h25 : elements = it.elements := by
        by_contra hne
        exact h2 ⟨h4, hne⟩
      exact ⟨h4, h25.symm, fun _ => rfl⟩
  · simp only [vertexStep, hb] at h
    split_ifs at h with h1 h2 h3 h4 h5 h6
    · rw [Option.some.injEq] at h
      subst h
      push_neg at h3
      exact ⟨h3.2, rfl, fun hc => absurd h2 hc⟩
    · rw [Option.some.injEq] at h
      subst h
      push_neg at h5
      exact ⟨h2, h5.1.symm, fun _ => rfl⟩

/-- Helper: a successful vertex-loop fold forces every layout's element
count to equal the returned baseline, which extends a nonzero incoming
baseline unchanged. -/
theorem vertexFold_some_mem (elements : Nat) (ls : List BufferLayout)
    (r : Nat) (h : vertexFold elements ls = some r) :
    (∀ l ∈ ls, l.elements = r) ∧ (elements ≠ 0 → r = elements) := by
  induction ls generalizing elements with
  | nil =>
    simp only [vertexFold, Option.some.injEq] at h
    exact ⟨by simp, fun _ => h.symm⟩
  | cons l ls ih =>
    unfold vertexFold at h
    cases hs : vertexStep elements l with
    | none =>
      simp only [hs] at h
      exact Option.noConfusion h
    | some e =>
      simp only [hs] at h
      obtain ⟨hne, hel, himp⟩ := vertexStep_some elements l e hs
      obtain ⟨hall, hacc⟩ := ih e h
      have hre : r = e := hacc hne
      refine ⟨?_, fun hz => ?_⟩
      · intro x hx
        rcases List.mem_cons.mp hx with rfl | hx
        · rw [hel, hre]
        · exact hall x hx
      · rw [hre, himp hz]

/-- Helper: the stride of a layout resolving to a nonzero element count is
nonzero. -/
theorem stride_ne_zero (E : Nat) (l : BufferLayout) (hE : E ≠ 0)
    (hel : l.elements = E) : l.formats.stride ≠ 0 := by
  intro h0
  unfold BufferLayout.elements at hel
  rw [h0, Nat.div_zero] at hel
  exact hE hel.symm

/-- Helper: a well-formed layout passes one vertex-loop iteration, both
from the unset baseline and from the matching baseline E. -/
theorem vertexStep_ok (E : Nat) (l : BufferLayout) (hE : E ≠ 0)
    (hok : vertexLayoutOk E l = true) :
    vertexStep 0 l = some E ∧ vertexStep E l = some E := by
  rcases hb : l.buffer with _ | b
  · rw [vertexLayoutOk, hb] at hok
    simp only [Bool.and_true, Bool.and_eq_true, decide_eq_true_eq] at hok
    obtain ⟨hel, hbs⟩ := hok
    have hback : l.initDataSize = E * l.formats.stride := by
      rw [← hbs]
      unfold BufferLayout.backingSize
      rw [hb]
    have hsz : l.layoutSize = E * l.formats.stride := by
      unfold BufferLayout.layoutSize
      rw [hel]
    have hsznz : l.layoutSize ≠ 0 := by
      rw [hsz]
      exact Nat.mul_ne_zero hE (stride_ne_zero E l hE hel)
    have hszeq : ¬l.initDataSize ≠ l.layoutSize := by
      rw [hback, hsz]
      simp
    constructor
    · simp only [vertexStep, hb]
      rw [if_neg hsznz, if_neg (by simp), if_neg hszeq]
      simp only [if_true]
      rw [hel]
    · simp only [vertexStep, hb]
      rw [if_neg hsznz,
        if_neg (fun hand => hand.2 hel.symm),
        if_neg hszeq, if_neg hE]
  · rw [vertexLayoutOk, hb] at hok
    simp only [Bool.and_eq_true, decide_eq_true_eq] at hok
    obtain ⟨⟨hel, hbs⟩, htype⟩ := hok
    have hback : b.size = E * l.formats.stride := by
      rw [← hbs]
      unfold BufferLayout.backingSize
      rw [hb]
    have hsz : l.layoutSize = E * l.formats.stride := by
      unfold BufferLayout.layoutSize
      rw [hel]
    have hszeq : ¬b.size ≠ l.layoutSize := by
      rw [hback, hsz]
      simp
    constructor
    · simp only [vertexStep, hb]
      rw [if_neg (not_not_intro htype)]
      simp only [if_true]
      rw [if_neg ?_, if_neg hszeq, hel]
      rintro (hne | hz)
      · exact hne rfl
      · rw [hel] at hz
        exact hE hz
    · simp only [vertexStep, hb]
      rw [if_neg (not_not_intro htype), if_neg hE]
      rw [if_neg ?_, if_neg hszeq]
      rintro (hne | hz)
      · exact hne hel.symm
      · exact hE hz

/-- Helper: a list of well-formed layouts folds from baseline E to E. -/
theorem vertexFold_ok (E : Nat) (hE : E ≠ 0) (ls : List BufferLayout)
    (hall : ∀ l ∈ ls, vertexLayoutOk E l = true) :
    vertexFold E ls = some E := by
  induction ls with
  | nil => rfl
  | cons l ls ih =>
    unfold vertexFold
    rw [(vertexStep_ok E l hE (hall l (by simp))).2]
    exact ih (fun x hx => hall x (by simp [hx]))

/-- C1 counterexample: an Info whose single vertex layout resolves to
element count 0 — so all N ≥ 1 layouts share one element count E = 0 —
still fails construction, refuting the claim's unrestricted success
direction. -/
theorem pbConstruct_zero_count_counterexample :
    pbZeroInfo.vertexLayout.length = 1 ∧
    (∀ l ∈ pbZeroInfo.vertexLayout, l.elements = 0) ∧
    pbConstruct pbZeroInfo = none := by
  decide

/-- C1 (amended): for an Info with N ≥ 1 well-formed vertex layouts all
resolving to one element count E ≥ 1 (supplied buffers tagged VERTEX,
backing data exactly E strides) and a valid (or absent) index layout,
construction succeeds and the object reports E; and whenever two vertex
layouts resolve to differing element counts, construction fails
(fatally). -/
theorem pbConstruct_element_agreement (info : PBInfo) (E : Nat) :
    (info.vertexLayout ≠ [] → E ≠ 0 →
     (∀ l ∈ info.vertexLayout, vertexLayoutOk E l = true) →
     (∀ il ∈ info.indexLayout, indexLayoutOk il = true) →
     pbConstruct info = some E) ∧
    (∀ l₁ ∈ info.vertexLayout, ∀ l₂ ∈ info.vertexLayout,
       l₁.elements ≠ l₂.elements → pbConstruct info = none) := by
  constructor
  · intro hne hE hall hidx
    rcases hv : info.vertexLayout with _ | ⟨l, ls⟩
    · exact absurd hv hne
    · rw [hv] at hall
      have hfold : vertexFold 0 (l :: ls) = some E := by
        unfold vertexFold
        rw [(vertexStep_ok E l hE (hall l (by simp))).1]
        exact vertexFold_ok E hE ls (fun x hx => hall x (by simp [hx]))
      unfold pbConstruct
      rw [hv]
      simp only [hfold]
      rw [if_neg (by simp)]
      rcases hi : info.indexLayout with _ | il
      · simp only [hi]
      · simp only [hi]
        rw [if_pos (hidx il (by simp [hi]))]
  · intro l₁ h₁ l₂ h₂ hne
    cases hc : pbConstruct info with
    | none => rfl
    | some e =>
      exfalso
      unfold pbConstruct at hc
      cases hf : vertexFold 0 info.vertexLayout with
      | none =>
        rw [hf] at hc
        exact Option.noConfusion hc
      | some e0 =>
        obtain ⟨hall, -⟩ := vertexFold_some_mem 0 info.vertexLayout e0 hf
        exact hne ((hall l₁ h₁).trans (hall l₂ h₂).symm)

/-- Witness for pbConstruct_element_agreement: two layouts agreeing on 3
elements construct and report 3; layouts with 3 and 4 elements fail. -/
theorem pbConstruct_element_agreement_witness :
    pbConstruct pbGoodInfo = some 3 ∧ pbConstruct pbBadInfo = none :=
  ⟨(pbConstruct_element_agreement pbGoodInfo 3).1 (by decide) (by decide)
      (by decide) (fun il hil => absurd hil (Option.not_mem_none il)),
   (pbConstruct_element_agreement pbBadInfo 0).2 lay0 (by decide) lay2
      (by decide) (by decide)⟩

/-- Helper: every call the release block issues is a deletion. -/
theorem releaseCalls_only_deletes (info : FBInfo) (d : FBData) (x : FBCall)
    (hx : x ∈ releaseCalls info d) :
    (∃ hdl, x = FBCall.deleteFramebuffer hdl) ∨
    (∃ hdl, x = FBCall.deleteTexture hdl) ∨
    (∃ hdl, x = FBCall.deleteRenderbuffer hdl) := by
  unfold releaseCalls at hx
  simp only [List.mem_append, List.mem_filterMap] at hx
  rcases hx with (hx | hx) | ⟨a, ha, hfa⟩
  · split at hx
    · rw [List.mem_singleton] at hx
      exact Or.inl ⟨d.index, hx⟩
    · exact absurd hx (List.not_mem_nil x)
  · split at hx
    · rw [List.mem_singleton] at hx
      by_cases hk : info.keepDepth
      · rw [if_pos hk] at hx
        exact Or.inr (Or.inl ⟨d.depth, hx⟩)
      · rw [if_neg hk] at hx
        exact Or.inr (Or.inr ⟨d.depth, hx⟩)
    · exact absurd hx (List.not_mem_nil x)
  · split at hfa
    · rw [Option.some.injEq] at hfa
      exact Or.inr (Or.inl ⟨a, hfa.symm⟩)
    · exact Option.noConfusion hfa

/-- Helper: the release block never checks completeness. -/
theorem checkComplete_not_in_release (info : FBInfo) (d : FBData) :
    FBCall.checkComplete ∉ releaseCalls info d := by
  intro hmem
  rcases releaseCalls_only_deletes info d _ hmem with ⟨hdl, h⟩ | ⟨hdl, h⟩ | ⟨hdl, h⟩ <;>
    exact FBCall.noConfusion h

/-- Helper: the color-attachment loop produces one name per declared
format. -/
theorem allocColors_length (fs : List GPUFormat) (s : Nat) (sz : Vec2 Nat)
    (n a : Nat) : (allocColors fs s sz n a).1.length = fs.length := by
  induction fs generalizing n a with
  | nil => rfl
  | cons f fs ih =>
    simp only [allocColors, List.length_cons]
    rw [ih]

/-- Helper: viewportScale 1 at backbuffer size (0, 5) computes (0, 5). -/
theorem fbEdge_computed : computedFBSize fbEdge.info ⟨0, 5⟩ = ⟨0, 5⟩ := by
  unfold computedFBSize u32trunc fbEdge
  norm_num
  rfl

/-- Helper: viewportScale 1/2 at backbuffer size (100, 100) computes
(50, 50). -/
theorem fbHalf_computed_100 :
    computedFBSize fbHalf.info ⟨100, 100⟩ = ⟨50, 50⟩ := by
  unfold computedFBSize u32trunc fbHalf
  norm_num
  rfl

/-- C8 counterexample: resizing a dynamic surface from (1, 1) to a computed
size of (0, 5) — a nonzero Vec2 with zero width — releases the attachments
and suspends without any allocation or completeness check (the call runs to
completion even with completeness reported false), because the source tests
only size[0]; the claim's "if the computed new size is zero ... otherwise
allocate and verify" predicts allocation and verification here. -/
theorem onResize_zero_width_counterexample :
    computedFBSize fbEdge.info ⟨0, 5⟩ = ⟨0, 5⟩ ∧
    (⟨0, 5⟩ : Vec2 Nat) ≠ ⟨0, 0⟩ ∧
    computedFBSize fbEdge.info ⟨0, 5⟩ ≠ fbEdge.info.size ∧
    fbEdge.info.isDynamic = true ∧
    onResize false fbEdge ⟨0, 5⟩ =
      some ({ info := { fbEdge.info with size := ⟨0, 5⟩ },
              data := { fbEdge.data with index := 0, depth := 0 },
              nextName := fbEdge.nextName },
            releaseCalls fbEdge.info fbEdge.data) ∧
    releaseCalls fbEdge.info fbEdge.data =
      [FBCall.deleteFramebuffer 5, FBCall.deleteTexture 7] ∧
    FBCall.checkComplete ∉ releaseCalls fbEdge.info fbEdge.data := by
  refine ⟨fbEdge_computed, by decide, by rw [fbEdge_computed]; decide, rfl,
    ?_, by decide, checkComplete_not_in_release fbEdge.info fbEdge.data⟩
  unfold onResize
  rw [fbEdge_computed]
  rw [if_neg (by decide), if_pos rfl]

/-- C8 (amended): when a dynamic surface's onResize computes a size that
differs from the current one, every currently held attachment name (the
framebuffer, the depth attachment, each nonzero color texture) is released;
if the computed WIDTH is zero (the source tests size[0] only, not the whole
vector) the surface is left suspended with zeroed framebuffer and depth
names, no allocation and no completeness check; otherwise attachments are
allocated (a framebuffer name, the depth attachment, one color attachment
per declared format) and completeness is verified, incompleteness being
fatal. -/
theorem onResize_release_and_paths (c : Bool) (st : FBState) (siz : Vec2 Nat)
    (hdyn : st.info.isDynamic = true)
    (hne : computedFBSize st.info siz ≠ st.info.size) :
    (st.data.index ≠ 0 →
       FBCall.deleteFramebuffer st.data.index ∈ releaseCalls st.info st.data) ∧
    (∀ hdl ∈ st.data.renderTextures, hdl ≠ 0 →
       FBCall.deleteTexture hdl ∈ releaseCalls st.info st.data) ∧
    ((computedFBSize st.info siz).x = 0 →
       onResize c st siz =
         some ({ info := { st.info with size := computedFBSize st.info siz },
                 data := { st.data with index := 0, depth := 0 },
                 nextName := st.nextName },
               releaseCalls st.info st.data) ∧
       FBCall.checkComplete ∉ releaseCalls st.info st.data) ∧
    ((computedFBSize st.info siz).x ≠ 0 →
       (c = false → onResize c st siz = none) ∧
       (c = true →
          onResize c st siz =
            some (onResizeAllocState st (computedFBSize st.info siz),
              releaseCalls st.info st.data ++
                onResizeAllocCalls st (computedFBSize st.info siz)) ∧
          FBCall.checkComplete ∈
            onResizeAllocCalls st (computedFBSize st.info siz) ∧
          (onResizeAllocState st (computedFBSize st.info siz)).data.index =
            st.nextName ∧
          (onResizeAllocState st
            (computedFBSize st.info siz)).data.renderTextures.length =
            st.info.colorFormats.length)) := by
  have hguard : ¬(st.info.size = computedFBSize st.info siz ∨
      st.info.isDynamic = false) := by
    rintro (hs | hd)
    · exact hne hs.symm
    · rw [hdyn] at hd
      exact Bool.noConfusion hd
  refine ⟨?_, ?_, fun hx0 => ⟨?_, checkComplete_not_in_release st.info st.data⟩,
    fun hx0 => ⟨fun hc => ?_, fun hc => ⟨?_, ?_, rfl, ?_⟩⟩⟩
  · intro h0
    unfold releaseCalls
    simp [h0]
  · intro hdl hmem hne0
    unfold releaseCalls
    simp only [List.mem_append, List.mem_filterMap]
    refine Or.inr ⟨hdl, hmem, ?_⟩
    rw [if_pos hne0]
  · unfold onResize
    rw [if_neg hguard, if_pos hx0]
  · subst hc
    unfold onResize
    rw [if_neg hguard, if_neg hx0, if_pos rfl]
  · subst hc
    unfold onResize
    rw [if_neg hguard, if_neg hx0, if_neg (by simp)]
  · unfold onResizeAllocCalls
    simp
  · simp only [onResizeAllocState]
    rw [allocColors_length]

/-- Witness for onResize_release_and_paths: a dynamic half-scale surface
resized from (400, 300) to computed (50, 50) takes the allocation path,
emitting the release calls followed by the allocation calls. -/
theorem onResize_release_and_paths_witness :
    onResize true fbHalf ⟨100, 100⟩ =
      some (onResizeAllocState fbHalf (computedFBSize fbHalf.info ⟨100, 100⟩),
        releaseCalls fbHalf.info fbHalf.data ++
          onResizeAllocCalls fbHalf (computedFBSize fbHalf.info ⟨100, 100⟩)) :=
  (((onResize_release_and_paths true fbHalf ⟨100, 100⟩ rfl
      (by rw [fbHalf_computed_100]; decide)).2.2.2
      (by rw [fbHalf_computed_100]; decide)).2 rfl).1

end Ignis
